import Mathlib

set_option autoImplicit false
set_option maxHeartbeats 1000000

/-
Verification of the PostgreSQL bulk-read source
(src/connectorx/src/sources/postgres/mod.rs) against its specification.
The file embeds the data model and the operations of the source as
executable Lean definitions and proves the specified properties about
them. External collaborators (the postgres driver, chrono, serde, the
hex crate, the count-query rewriter) are abstracted as parameters; the
iterator of a parser is embedded as the list of results it will yield.
-/

namespace ConnectorX

/-- Outcome of a Rust call: a normal return, an error returned through the
Result channel, or a panic that aborts the thread (the panic message is
kept). Panics and returned errors are distinct failure modes. -/
inductive RustResult (ε α : Type) where
  | ok : α → RustResult ε α
  | err : ε → RustResult ε α
  | panicked : String → RustResult ε α
  deriving DecidableEq

/-- True exactly when the call returned an error through the Result
channel (as opposed to succeeding or panicking). -/
def RustResult.isErr {ε α : Type} : RustResult ε α → Bool
  | .err _ => true
  | _ => false

/-- Map over the success value, keeping errors and panics. -/
def RustResult.map {ε α β : Type} (f : α → β) : RustResult ε α → RustResult ε β
  | .ok a => .ok (f a)
  | .err e => .err e
  | .panicked m => .panicked m

/-- Modelled from the spec: the data_order module of the surrounding
library is not under src; the spec names the row-major and column-major
orders. -/
inductive DataOrder where
  | RowMajor
  | ColumnMajor
  deriving DecidableEq

/-- Modelled from the spec: the upstream generic error type of the
library (its errors module is not under src). The variants used by this
file are UnsupportedDataOrder and CannotProduce; per the spec,
CannotProduce carries the attempted target type and the offending string
payload when available. -/
inductive ConnectorXError where
  | UnsupportedDataOrder : DataOrder → ConnectorXError
  | CannotProduce : String → Option String → ConnectorXError
  deriving DecidableEq

/-- Modelled from the spec: the closed error taxonomy of PostgresSourceError
in section 7 of the spec (errors.rs is not under src). Message payloads of
wrapped foreign errors are modelled as strings. -/
inductive PostgresSourceError where
  | PostgresPool : String → PostgresSourceError
  | Postgres : String → PostgresSourceError
  | CSV : String → PostgresSourceError
  | Hex : String → PostgresSourceError
  | JSON : String → PostgresSourceError
  | ConnectorX : ConnectorXError → PostgresSourceError
  | Other : String → PostgresSourceError
  | Unimplemented : String → PostgresSourceError
  deriving DecidableEq

/-- Modelled from the spec: the logical type system of section 3
(typesystem.rs is not under src); each variant carries its nullable flag. -/
inductive PostgresTypeSystem where
  | Bool : Bool → PostgresTypeSystem
  | Int2 : Bool → PostgresTypeSystem
  | Int4 : Bool → PostgresTypeSystem
  | Int8 : Bool → PostgresTypeSystem
  | Float4 : Bool → PostgresTypeSystem
  | Float8 : Bool → PostgresTypeSystem
  | Numeric : Bool → PostgresTypeSystem
  | BoolArray : Bool → PostgresTypeSystem
  | Int2Array : Bool → PostgresTypeSystem
  | Int4Array : Bool → PostgresTypeSystem
  | Int8Array : Bool → PostgresTypeSystem
  | Float4Array : Bool → PostgresTypeSystem
  | Float8Array : Bool → PostgresTypeSystem
  | NumericArray : Bool → PostgresTypeSystem
  | Text : Bool → PostgresTypeSystem
  | BpChar : Bool → PostgresTypeSystem
  | VarChar : Bool → PostgresTypeSystem
  | Name : Bool → PostgresTypeSystem
  | ByteA : Bool → PostgresTypeSystem
  | Time : Bool → PostgresTypeSystem
  | Timestamp : Bool → PostgresTypeSystem
  | TimestampTz : Bool → PostgresTypeSystem
  | Date : Bool → PostgresTypeSystem
  | UUID : Bool → PostgresTypeSystem
  | JSON : Bool → PostgresTypeSystem
  | JSONB : Bool → PostgresTypeSystem
  | HSTORE : Bool → PostgresTypeSystem
  deriving DecidableEq

/-- True exactly on the three variants that the count-query result
dispatch of get_total_rows accepts. -/
def isCountInt : PostgresTypeSystem → Bool
  | .Int2 _ => true
  | .Int4 _ => true
  | .Int8 _ => true
  | _ => false

deriving instance DecidableEq for Except

/-- Model of the hstore target type HashMap String (Option String), as an
association list. -/
abbrev HStore : Type := List (String × Option String)

/-- Modelled from the spec: DB_BUFFER_SIZE is a compile-time constant from
the crate constants module, which is not under src. The value 32 is used
here; every general theorem below is insensitive to the exact positive
value. -/
def DB_BUFFER_SIZE : Nat := 32

/-- Shared state of the three partition parsers of the source
(PostgresBinarySourcePartitionParser, PostgresCSVSourceParser and
PostgresRawSourceParser), whose iterator, buffer and cursor fields and
whose fetch_next and next_loc bodies are textually identical; only the
row type R and the iterator flavour differ per protocol. The iterator is
embedded as the list of pull results it will yield, the end of the list
meaning the stream is exhausted. For the CSV parser R is the string
record, a list of fields. -/
structure ParserState (R : Type) where
  iter : List (Except PostgresSourceError R)
  rowbuf : List R
  ncols : Nat
  current_col : Nat
  current_row : Nat
  deriving DecidableEq

/-- Translation of next_loc (identical in the three parsers): return the
current pair and advance in row-major order, the row by the carry of the
column increment. The source wraps the result in an infallible Result;
following the design note of the spec the model is the pure function. -/
def next_loc {R : Type} (st : ParserState R) : (Nat × Nat) × ParserState R :=
  ((st.current_row, st.current_col),
   { st with
      current_row := st.current_row + (st.current_col + 1) / st.ncols,
      current_col := (st.current_col + 1) % st.ncols })

/-- State of a parser after k successive next_loc calls. -/
def locAfter {R : Type} : Nat → ParserState R → ParserState R
  | 0, st => st
  | k + 1, st => (next_loc (locAfter k st)).2

/-- The pull loop inside fetch_next: pull at most fuel rows from the
iterator, stopping early at stream exhaustion and stopping with the error
at the first failing pull. Returns the optional error, the filled buffer
and the remaining iterator. -/
def fetchGo {R : Type} :
    Nat → List (Except PostgresSourceError R) → List R →
      Option PostgresSourceError × List R × List (Except PostgresSourceError R)
  | 0, stream, buf => (none, buf, stream)
  | _ + 1, [], buf => (none, buf, [])
  | _ + 1, Except.error e :: rest, buf => (some e, buf, rest)
  | fuel + 1, Except.ok r :: rest, buf => fetchGo fuel rest (buf ++ [r])

/-- Translation of fetch_next (identical in the three parsers): drain
rowbuf, pull up to DB_BUFFER_SIZE rows, reset the cursor on success, and
return the batch size together with the is_last flag. On an iterator
error the error is returned and the partially refilled state keeps the
old cursor, exactly as in the source where the early return happens
before the cursor reset. -/
def fetch_next {R : Type} (st : ParserState R) :
    Except PostgresSourceError (Nat × Bool) × ParserState R :=
  match fetchGo DB_BUFFER_SIZE st.iter [] with
  | (some e, buf, rest) =>
      (Except.error e, { st with iter := rest, rowbuf := buf })
  | (none, buf, rest) =>
      (Except.ok (buf.length, decide (buf.length < DB_BUFFER_SIZE)),
       { iter := rest, rowbuf := buf, ncols := st.ncols,
         current_col := 0, current_row := 0 })

/-- Field access rowbuf[ridx][cidx] on the CSV parser; indexing a Vec or
a StringRecord out of bounds panics in Rust. -/
def getField (st : ParserState (List String)) (r c : Nat) :
    RustResult PostgresSourceError String :=
  match st.rowbuf.get? r with
  | none => RustResult.panicked "index out of bounds"
  | some row =>
    match row.get? c with
    | none => RustResult.panicked "index out of bounds"
    | some s => RustResult.ok s

/-- Field at the current cursor of the CSV parser, the one the next
produce call will read. -/
def fieldAt (st : ParserState (List String)) :
    RustResult PostgresSourceError String :=
  getField st st.current_row st.current_col

/-- Message of the unimplemented macro call in the four hstore producers
of the binary and CSV parsers; the Rust macro panics with this text. -/
def hstoreUnimplementedMsg : String :=
  "not implemented: Please use `cursor` protocol for hstore type"

/-- Translation of Produce of HashMap String (Option String) for the
binary parser: the body is a single unimplemented macro call, a panic,
executed before any cursor movement. The binary row type is opaque here. -/
def binaryProduceHstore {R : Type} (st : ParserState R) :
    RustResult PostgresSourceError HStore × ParserState R :=
  (RustResult.panicked hstoreUnimplementedMsg, st)

/-- Translation of Produce of Option (HashMap String (Option String)) for
the binary parser: the same unconditional panic. -/
def binaryProduceHstoreOpt {R : Type} (st : ParserState R) :
    RustResult PostgresSourceError (Option HStore) × ParserState R :=
  (RustResult.panicked hstoreUnimplementedMsg, st)

/-- Translation of Produce of HashMap String (Option String) for the CSV
parser: the same unconditional panic. -/
def csvProduceHstore (st : ParserState (List String)) :
    RustResult PostgresSourceError HStore × ParserState (List String) :=
  (RustResult.panicked hstoreUnimplementedMsg, st)

/-- Translation of Produce of Option (HashMap String (Option String)) for
the CSV parser: the same unconditional panic. -/
def csvProduceHstoreOpt (st : ParserState (List String)) :
    RustResult PostgresSourceError (Option HStore) × ParserState (List String) :=
  (RustResult.panicked hstoreUnimplementedMsg, st)

/-- Translation of the impl_produce macro body shared by the binary and
cursor parsers for every listed target type: advance the cursor, index
rowbuf (a panic when out of bounds) and delegate the decode to try_get on
the row. A row is embedded, for the requested target type, as its
per-column try_get results; the cursor parser instantiated at HStore is
the one hstore decoder of the program. -/
def rawProduce {A : Type} (st : ParserState (Nat → Except PostgresSourceError A)) :
    RustResult PostgresSourceError A × ParserState (Nat → Except PostgresSourceError A) :=
  let rcst := next_loc st
  match rcst.2.rowbuf.get? rcst.1.1 with
  | none => (RustResult.panicked "index out of bounds", rcst.2)
  | some row =>
    match row rcst.1.2 with
    | Except.ok v => (RustResult.ok v, rcst.2)
    | Except.error e => (RustResult.err e, rcst.2)

/-- Translation of the impl_csv_produce macro body for the non-optional
target T, and of the structurally identical NaiveDate, NaiveDateTime,
NaiveTime and json Value producers of the CSV parser: advance the cursor,
read the field, run the external parse function of the target, and on a
parse failure return CannotProduce carrying the target type name and the
field. -/
def csvProduce {A : Type} (tyName : String) (parse : String → Option A)
    (st : ParserState (List String)) :
    RustResult PostgresSourceError A × ParserState (List String) :=
  let rcst := next_loc st
  match getField rcst.2 rcst.1.1 rcst.1.2 with
  | RustResult.panicked m => (RustResult.panicked m, rcst.2)
  | RustResult.err e => (RustResult.err e, rcst.2)
  | RustResult.ok s =>
    match parse s with
    | some v => (RustResult.ok v, rcst.2)
    | none =>
        (RustResult.err (PostgresSourceError.ConnectorX
          (ConnectorXError.CannotProduce tyName (some s))), rcst.2)

/-- Translation of the impl_csv_produce macro body for the optional
target Option T, and of the structurally identical optional NaiveDate,
NaiveDateTime and NaiveTime producers: the empty field is None before any
parse is attempted; otherwise parse as in the non-optional form. -/
def csvProduceOpt {A : Type} (tyName : String) (parse : String → Option A)
    (st : ParserState (List String)) :
    RustResult PostgresSourceError (Option A) × ParserState (List String) :=
  let rcst := next_loc st
  match getField rcst.2 rcst.1.1 rcst.1.2 with
  | RustResult.panicked m => (RustResult.panicked m, rcst.2)
  | RustResult.err e => (RustResult.err e, rcst.2)
  | RustResult.ok s =>
    if s = "" then (RustResult.ok none, rcst.2)
    else
      match parse s with
      | some v => (RustResult.ok (some v), rcst.2)
      | none =>
          (RustResult.err (PostgresSourceError.ConnectorX
            (ConnectorXError.CannotProduce tyName (some s))), rcst.2)

/-- Translation of the bool producer of the CSV parser: t is true, f is
false, anything else is CannotProduce. -/
def csvProduceBool (st : ParserState (List String)) :
    RustResult PostgresSourceError Bool × ParserState (List String) :=
  let rcst := next_loc st
  match getField rcst.2 rcst.1.1 rcst.1.2 with
  | RustResult.panicked m => (RustResult.panicked m, rcst.2)
  | RustResult.err e => (RustResult.err e, rcst.2)
  | RustResult.ok s =>
    if s = "t" then (RustResult.ok true, rcst.2)
    else if s = "f" then (RustResult.ok false, rcst.2)
    else
      (RustResult.err (PostgresSourceError.ConnectorX
        (ConnectorXError.CannotProduce "bool" (some s))), rcst.2)

/-- Translation of the Option bool producer of the CSV parser: the empty
field is None, then t and f as in the non-optional form. -/
def csvProduceBoolOpt (st : ParserState (List String)) :
    RustResult PostgresSourceError (Option Bool) × ParserState (List String) :=
  let rcst := next_loc st
  match getField rcst.2 rcst.1.1 rcst.1.2 with
  | RustResult.panicked m => (RustResult.panicked m, rcst.2)
  | RustResult.err e => (RustResult.err e, rcst.2)
  | RustResult.ok s =>
    if s = "" then (RustResult.ok none, rcst.2)
    else if s = "t" then (RustResult.ok (some true), rcst.2)
    else if s = "f" then (RustResult.ok (some false), rcst.2)
    else
      (RustResult.err (PostgresSourceError.ConnectorX
        (ConnectorXError.CannotProduce "bool" (some s))), rcst.2)

/-- Translation of the DateTime Utc producer of the CSV parser: the field
s is extended to s followed by the text colon-zero-zero before the
external chrono parse, completing the truncated plus-or-minus-HH offset
emitted by postgres; a parse failure is CannotProduce carrying the
original field. -/
def csvProduceDateTimeUtc {A : Type} (parse : String → Option A)
    (st : ParserState (List String)) :
    RustResult PostgresSourceError A × ParserState (List String) :=
  let rcst := next_loc st
  match getField rcst.2 rcst.1.1 rcst.1.2 with
  | RustResult.panicked m => (RustResult.panicked m, rcst.2)
  | RustResult.err e => (RustResult.err e, rcst.2)
  | RustResult.ok s =>
    match parse (s ++ ":00") with
    | some v => (RustResult.ok v, rcst.2)
    | none =>
        (RustResult.err (PostgresSourceError.ConnectorX
          (ConnectorXError.CannotProduce "DateTime<Utc>" (some s))), rcst.2)

/-- Translation of the Option DateTime Utc producer of the CSV parser:
the empty field is None before any parse is attempted; otherwise as the
non-optional form. -/
def csvProduceDateTimeUtcOpt {A : Type} (parse : String → Option A)
    (st : ParserState (List String)) :
    RustResult PostgresSourceError (Option A) × ParserState (List String) :=
  let rcst := next_loc st
  match getField rcst.2 rcst.1.1 rcst.1.2 with
  | RustResult.panicked m => (RustResult.panicked m, rcst.2)
  | RustResult.err e => (RustResult.err e, rcst.2)
  | RustResult.ok s =>
    if s = "" then (RustResult.ok none, rcst.2)
    else
      match parse (s ++ ":00") with
      | some v => (RustResult.ok (some v), rcst.2)
      | none =>
          (RustResult.err (PostgresSourceError.ConnectorX
            (ConnectorXError.CannotProduce "DateTime<Utc>" (some s))), rcst.2)

/-- Rust str split on the comma separator, on the character list of a
field: splitting the empty remainder yields one empty piece, as in Rust. -/
def splitOnCommaAux : List Char → List Char → List String
  | [], acc => [String.mk acc.reverse]
  | c :: rest, acc =>
    if c = ',' then String.mk acc.reverse :: splitOnCommaAux rest []
    else splitOnCommaAux rest (c :: acc)

/-- Split a character list on commas into the list of pieces. -/
def splitOnComma (l : List Char) : List String := splitOnCommaAux l []

/-- The collect over a Result of the element parses: every piece must
parse, and any failure fails the whole vector, as the Rust collect into a
Result does. -/
def parseAll {A : Type} (parse : String → Option A) : List String → Option (List A)
  | [] => some []
  | x :: xs =>
    match parse x, parseAll parse xs with
    | some v, some vs => some (v :: vs)
    | _, _ => none

/-- Translation of the impl_csv_vec_produce macro body for the
non-optional target Vec T. String length and the brace stripping are byte
operations in Rust and character operations here, which agree on ASCII
fields. The failure payload is the whole field in every error case, as in
the source where the closure captures the shadowing match binder. -/
def csvVecProduce {A : Type} (tyName : String) (parse : String → Option A)
    (st : ParserState (List String)) :
    RustResult PostgresSourceError (List A) × ParserState (List String) :=
  let rcst := next_loc st
  match getField rcst.2 rcst.1.1 rcst.1.2 with
  | RustResult.panicked m => (RustResult.panicked m, rcst.2)
  | RustResult.err e => (RustResult.err e, rcst.2)
  | RustResult.ok s =>
    if s = "\x7b\x7d" then (RustResult.ok [], rcst.2)
    else if s.length < 3 then
      (RustResult.err (PostgresSourceError.ConnectorX
        (ConnectorXError.CannotProduce tyName (some s))), rcst.2)
    else
      match parseAll parse (splitOnComma ((s.data.drop 1).dropLast)) with
      | some vs => (RustResult.ok vs, rcst.2)
      | none =>
          (RustResult.err (PostgresSourceError.ConnectorX
            (ConnectorXError.CannotProduce tyName (some s))), rcst.2)

/-- Translation of the impl_csv_vec_produce macro body for the optional
target Option (Vec T): the empty field is None, then as the non-optional
form. -/
def csvVecProduceOpt {A : Type} (tyName : String) (parse : String → Option A)
    (st : ParserState (List String)) :
    RustResult PostgresSourceError (Option (List A)) × ParserState (List String) :=
  let rcst := next_loc st
  match getField rcst.2 rcst.1.1 rcst.1.2 with
  | RustResult.panicked m => (RustResult.panicked m, rcst.2)
  | RustResult.err e => (RustResult.err e, rcst.2)
  | RustResult.ok s =>
    if s = "" then (RustResult.ok none, rcst.2)
    else if s = "\x7b\x7d" then (RustResult.ok (some []), rcst.2)
    else if s.length < 3 then
      (RustResult.err (PostgresSourceError.ConnectorX
        (ConnectorXError.CannotProduce tyName (some s))), rcst.2)
    else
      match parseAll parse (splitOnComma ((s.data.drop 1).dropLast)) with
      | some vs => (RustResult.ok (some vs), rcst.2)
      | none =>
          (RustResult.err (PostgresSourceError.ConnectorX
            (ConnectorXError.CannotProduce tyName (some s))), rcst.2)

/-- Translation of the str producer of the CSV parser: the field is
returned as is, borrowed from the buffer, with no failure possible
besides an out-of-bounds panic. -/
def csvProduceStr (st : ParserState (List String)) :
    RustResult PostgresSourceError String × ParserState (List String) :=
  let rcst := next_loc st
  match getField rcst.2 rcst.1.1 rcst.1.2 with
  | RustResult.panicked m => (RustResult.panicked m, rcst.2)
  | RustResult.err e => (RustResult.err e, rcst.2)
  | RustResult.ok s => (RustResult.ok s, rcst.2)

/-- Translation of the Option str producer of the CSV parser: the empty
field is None, any other field is returned as is. -/
def csvProduceStrOpt (st : ParserState (List String)) :
    RustResult PostgresSourceError (Option String) × ParserState (List String) :=
  let rcst := next_loc st
  match getField rcst.2 rcst.1.1 rcst.1.2 with
  | RustResult.panicked m => (RustResult.panicked m, rcst.2)
  | RustResult.err e => (RustResult.err e, rcst.2)
  | RustResult.ok s =>
    if s = "" then (RustResult.ok none, rcst.2)
    else (RustResult.ok (some s), rcst.2)

/-- Translation of the Vec u8 producer of the CSV parser: the field is
sliced from byte 2, skipping the backslash-x prefix, and hex decoded by
the external hex crate, abstracted as hexdec; slicing an out-of-range
index panics in Rust, so a field shorter than two bytes panics, and a
decode failure surfaces as a Hex error. Bytes are modelled as naturals. -/
def csvProduceBytea (hexdec : String → Option (List Nat))
    (st : ParserState (List String)) :
    RustResult PostgresSourceError (List Nat) × ParserState (List String) :=
  let rcst := next_loc st
  match getField rcst.2 rcst.1.1 rcst.1.2 with
  | RustResult.panicked m => (RustResult.panicked m, rcst.2)
  | RustResult.err e => (RustResult.err e, rcst.2)
  | RustResult.ok s =>
    if s.length < 2 then (RustResult.panicked "byte index out of bounds", rcst.2)
    else
      match hexdec (String.mk (s.data.drop 2)) with
      | some bs => (RustResult.ok bs, rcst.2)
      | none => (RustResult.err (PostgresSourceError.Hex "hex decode failure"), rcst.2)

/-- Translation of the Option Vec u8 producer of the CSV parser: the
empty field is None, any other field is sliced and decoded as in the
non-optional form. -/
def csvProduceByteaOpt (hexdec : String → Option (List Nat))
    (st : ParserState (List String)) :
    RustResult PostgresSourceError (Option (List Nat)) × ParserState (List String) :=
  let rcst := next_loc st
  match getField rcst.2 rcst.1.1 rcst.1.2 with
  | RustResult.panicked m => (RustResult.panicked m, rcst.2)
  | RustResult.err e => (RustResult.err e, rcst.2)
  | RustResult.ok s =>
    if s = "" then (RustResult.ok none, rcst.2)
    else if s.length < 2 then (RustResult.panicked "byte index out of bounds", rcst.2)
    else
      match hexdec (String.mk (s.data.drop 2)) with
      | some bs => (RustResult.ok (some bs), rcst.2)
      | none => (RustResult.err (PostgresSourceError.Hex "hex decode failure"), rcst.2)

/-- Translation of the Option Value producer of the CSV parser: the empty
field is None; any other field is deserialised by the external serde
parser directly into an Option Value, a failure mapping to CannotProduce
with the field as payload. -/
def csvProduceJsonOpt {A : Type} (parse : String → Option (Option A))
    (st : ParserState (List String)) :
    RustResult PostgresSourceError (Option A) × ParserState (List String) :=
  let rcst := next_loc st
  match getField rcst.2 rcst.1.1 rcst.1.2 with
  | RustResult.panicked m => (RustResult.panicked m, rcst.2)
  | RustResult.err e => (RustResult.err e, rcst.2)
  | RustResult.ok s =>
    if s = "" then (RustResult.ok none, rcst.2)
    else
      match parse s with
      | some o => (RustResult.ok o, rcst.2)
      | none =>
          (RustResult.err (PostgresSourceError.ConnectorX
            (ConnectorXError.CannotProduce "Value" (some s))), rcst.2)

/-- Source state of PostgresSource; the pool and the raw catalog schema
pg_schema are external handles and are not observed by the properties
settled here. -/
structure PostgresSource where
  origin_query : Option String
  queries : List String
  names : List String
  schema : List PostgresTypeSystem
  deriving DecidableEq

/-- Advertised data orders of the source. -/
def DATA_ORDERS : List DataOrder := [DataOrder.RowMajor]

/-- Translation of set_data_order: any order other than row-major throws
UnsupportedDataOrder; the state is never touched. -/
def set_data_order (st : PostgresSource) (data_order : DataOrder) :
    Except PostgresSourceError PostgresSource :=
  match data_order with
  | DataOrder.RowMajor => Except.ok st
  | _ =>
      Except.error (PostgresSourceError.ConnectorX
        (ConnectorXError.UnsupportedDataOrder data_order))

/-- Row returned by the derived count query: the catalog type of its only
column mapped into the logical type system, and the decoded integer
scalar at column 0, none standing for SQL NULL. -/
structure PgRow where
  colType : PostgresTypeSystem
  value : Option Int
  deriving DecidableEq

/-- The Rust cast as usize on a 64 bit platform: reduction modulo 2 ^ 64,
which on in-range i16, i32 and i64 inputs is twos-complement sign
extension. -/
def usizeOfInt (v : Int) : Nat := (v % (2 : Int) ^ 64).toNat

/-- Translation of convert_row: unwrap the scalar read from column 0 of
the row, panicking through expect when it is NULL. -/
def convert_row (value : Option Int) : RustResult PostgresSourceError Int :=
  match value with
  | some n => RustResult.ok n
  | none => RustResult.panicked "Could not parse int result from count_query"

/-- Translation of get_total_rows, applied to the outcome of running the
derived count query (count_query and query_one are external
collaborators): a driver error propagates; otherwise dispatch on the
returned column type, read the scalar at the matching width through
convert_row, cast it to usize, and reject any non-integer column with an
Other error. -/
def get_total_rows (queryResult : Except PostgresSourceError PgRow) :
    RustResult PostgresSourceError Nat :=
  match queryResult with
  | Except.error e => RustResult.err e
  | Except.ok row =>
    match row.colType with
    | PostgresTypeSystem.Int2 _ => (convert_row row.value).map usizeOfInt
    | PostgresTypeSystem.Int4 _ => (convert_row row.value).map usizeOfInt
    | PostgresTypeSystem.Int8 _ => (convert_row row.value).map usizeOfInt
    | _ =>
        RustResult.err (PostgresSourceError.Other
          "The result of the count query was not an int, aborting.")

/-- Translation of result_rows on the source: None when origin_query is
unset; otherwise the origin query is wrapped as a naked query, the
derived count query is run through the abstracted pool and driver
runCountQuery, and the total goes through get_total_rows. -/
def result_rows (st : PostgresSource)
    (runCountQuery : String → Except PostgresSourceError PgRow) :
    RustResult PostgresSourceError (Option Nat) :=
  match st.origin_query with
  | none => RustResult.ok none
  | some q => (get_total_rows (runCountQuery q)).map some

theorem fetchGo_length {R : Type} :
    ∀ (fuel : Nat) (stream : List (Except PostgresSourceError R)) (buf : List R),
      (fetchGo fuel stream buf).2.1.length ≤ buf.length + fuel := by
  intro fuel
  induction fuel with
  | zero => intro stream buf; simp [fetchGo]
  | succ n ih =>
    intro stream buf
    match stream with
    | [] => simp [fetchGo]
    | Except.error e :: rest => simp [fetchGo]
    | Except.ok r :: rest =>
      have h := ih rest (buf ++ [r])
      simp [fetchGo] at h ⊢
      omega

theorem fetchGo_none_short {R : Type} :
    ∀ (fuel : Nat) (stream : List (Except PostgresSourceError R))
      (buf buf' : List R) (rest : List (Except PostgresSourceError R)),
      fetchGo fuel stream buf = (none, buf', rest) →
      buf'.length < buf.length + fuel → rest = [] := by
  intro fuel
  induction fuel with
  | zero =>
    intro stream buf buf' rest h hlt
    simp only [fetchGo] at h
    injection h with ha hbc
    injection hbc with hb hc
    subst hb
    exact absurd hlt (by omega)
  | succ n ih =>
    intro stream buf buf' rest h hlt
    match stream with
    | [] =>
      simp only [fetchGo] at h
      injection h with ha hbc
      injection hbc with hb hc
      exact hc.symm
    | Except.error e :: tl => simp [fetchGo] at h
    | Except.ok r :: tl =>
      simp only [fetchGo] at h
      exact ih tl (buf ++ [r]) buf' rest h (by simp; omega)

theorem fetchGo_error_prop {R : Type} :
    ∀ (oks : List R) (fuel : Nat) (buf : List R) (e : PostgresSourceError)
      (rest : List (Except PostgresSourceError R)),
      oks.length < fuel →
      fetchGo fuel (oks.map Except.ok ++ Except.error e :: rest) buf =
        (some e, buf ++ oks, rest) := by
  intro oks
  induction oks with
  | nil =>
    intro fuel buf e rest hlt
    match fuel, hlt with
    | n + 1, _ => simp [fetchGo]
  | cons r tl ih =>
    intro fuel buf e rest hlt
    match fuel, hlt with
    | n + 1, hlt =>
      simp only [List.map_cons, List.cons_append, fetchGo]
      have := ih n (buf ++ [r]) e rest (by simp at hlt; omega)
      simpa [List.append_assoc] using this

/-- C2. For every parser (the three share their fetch_next body) and
every iterator state: a successful fetch_next leaves the cursor at (0,0),
returns the length of the refilled rowbuf, pulls at most DB_BUFFER_SIZE
rows, and reports is_last exactly when the batch is short; the previous
content of rowbuf never influences the call; and the first iterator error
reached within the batch window is propagated. -/
theorem c2_fetch_next_contract {R : Type} (st : ParserState R) :
    (∀ (res : Nat × Bool) (st' : ParserState R),
      fetch_next st = (Except.ok res, st') →
      st'.current_row = 0 ∧ st'.current_col = 0 ∧
      res.1 = st'.rowbuf.length ∧ st'.rowbuf.length ≤ DB_BUFFER_SIZE ∧
      (res.2 = true ↔ res.1 < DB_BUFFER_SIZE) ∧ st'.ncols = st.ncols) ∧
    (∀ (b : List R), fetch_next { st with rowbuf := b } = fetch_next st) ∧
    (∀ (oks : List R) (e : PostgresSourceError)
       (rest : List (Except PostgresSourceError R)),
      st.iter = oks.map Except.ok ++ Except.error e :: rest →
      oks.length < DB_BUFFER_SIZE →
      (fetch_next st).1 = Except.error e) := by
  refine ⟨?_, ?_, ?_⟩
  · intro res st' h
    unfold fetch_next at h
    rcases hG : fetchGo DB_BUFFER_SIZE st.iter ([] : List R) with ⟨e?, buf, rest⟩
    rw [hG] at h
    match e? with
    | some e => simp at h
    | none =>
      simp only [Prod.mk.injEq, Except.ok.injEq] at h
      obtain ⟨hres, hst⟩ := h
      have hlen : buf.length ≤ DB_BUFFER_SIZE := by
        have := fetchGo_length (R := R) DB_BUFFER_SIZE st.iter []
        rw [hG] at this
        simpa using this
      subst hst
      refine ⟨rfl, rfl, ?_, hlen, ?_, rfl⟩
      · rw [← hres]
      · rw [← hres]
        simp
  · intro b
    show fetch_next { st with rowbuf := b } = fetch_next st
    unfold fetch_next
    rcases hG : fetchGo DB_BUFFER_SIZE st.iter ([] : List R) with ⟨e?, buf, rest⟩
    cases e? <;> rfl
  · intro oks e rest hiter hlt
    unfold fetch_next
    rw [hiter, fetchGo_error_prop oks DB_BUFFER_SIZE [] e rest hlt]

theorem c2_fetch_next_contract_witness :
    fetch_next (⟨[Except.ok ()], [], 1, 0, 0⟩ : ParserState Unit) =
      (Except.ok (1, true), (⟨[], [()], 1, 0, 0⟩ : ParserState Unit)) ∧
    (⟨[], [()], 1, 0, 0⟩ : ParserState Unit).current_row = 0 ∧
    (⟨[], [()], 1, 0, 0⟩ : ParserState Unit).current_col = 0 ∧
    (1 : Nat) = (⟨[], [()], 1, 0, 0⟩ : ParserState Unit).rowbuf.length ∧
    (⟨[], [()], 1, 0, 0⟩ : ParserState Unit).rowbuf.length ≤ DB_BUFFER_SIZE ∧
    (true = true ↔ (1 : Nat) < DB_BUFFER_SIZE) ∧
    (⟨[], [()], 1, 0, 0⟩ : ParserState Unit).ncols = 1 := by
  refine ⟨by decide, ?_⟩
  exact (c2_fetch_next_contract (⟨[Except.ok ()], [], 1, 0, 0⟩ : ParserState Unit)).1
    (1, true) ⟨[], [()], 1, 0, 0⟩ (by decide)

/-- C5 counterexample. On a stream holding exactly DB_BUFFER_SIZE rows,
fetch_next returns a full batch with is_last = false, yet the immediately
following fetch_next returns (0, true): is_last = true is not equivalent
to the next call returning (0, true), refuting the claimed iff in the
right-to-left direction. -/
theorem c5_is_last_iff_counterexample :
    (fetch_next (⟨List.replicate DB_BUFFER_SIZE (Except.ok ()), [], 1, 0, 0⟩ :
        ParserState Unit)).1 = Except.ok (DB_BUFFER_SIZE, false) ∧
    (fetch_next
      (fetch_next (⟨List.replicate DB_BUFFER_SIZE (Except.ok ()), [], 1, 0, 0⟩ :
        ParserState Unit)).2).1 = Except.ok (0, true) := by
  constructor <;> decide

/-- C5 amended. The forward direction of the claim holds: whenever a
successful fetch_next reports is_last = true (equivalently, a short
batch), the immediately following fetch_next returns (0, true); the
converse direction fails on streams of an exact positive multiple of
DB_BUFFER_SIZE rows. -/
theorem c5_is_last_eof {R : Type} (st : ParserState R) (res : Nat × Bool)
    (st' : ParserState R) (h : fetch_next st = (Except.ok res, st'))
    (hlast : res.2 = true) :
    (fetch_next st').1 = Except.ok (0, true) := by
  unfold fetch_next at h
  rcases hG : fetchGo DB_BUFFER_SIZE st.iter ([] : List R) with ⟨e?, buf, rest⟩
  rw [hG] at h
  match e? with
  | some e => simp at h
  | none =>
    simp only [Prod.mk.injEq, Except.ok.injEq] at h
    obtain ⟨hres, hst⟩ := h
    have hshort : buf.length < DB_BUFFER_SIZE := by
      have := congrArg Prod.snd hres
      simp at this
      rw [← this] at hlast
      simpa using hlast
    have hrest : rest = [] :=
      fetchGo_none_short DB_BUFFER_SIZE st.iter [] buf rest hG (by simpa using hshort)
    have hiter : st'.iter = [] := by rw [← hst]; exact hrest
    have hfg : fetchGo DB_BUFFER_SIZE ([] : List (Except PostgresSourceError R)) [] =
        (none, [], []) := rfl
    unfold fetch_next
    rw [hiter, hfg]
    rfl

theorem c5_is_last_eof_witness :
    (fetch_next ((fetch_next (⟨[Except.ok ()], [], 1, 0, 0⟩ : ParserState Unit)).2)).1 =
      Except.ok (0, true) :=
  c5_is_last_eof ⟨[Except.ok ()], [], 1, 0, 0⟩ (1, true) ⟨[], [()], 1, 0, 0⟩
    (by decide) (by decide)

theorem locAfter_invariant {R : Type} (st : ParserState R) (n : Nat)
    (hn : st.ncols = n) (hpos : 1 ≤ n) (hr : st.current_row = 0)
    (hc : st.current_col = 0) :
    ∀ k : Nat, (locAfter k st).current_row = k / n ∧
      (locAfter k st).current_col = k % n ∧ (locAfter k st).ncols = n := by
  intro k
  induction k with
  | zero => simp [locAfter, hr, hc, hn]
  | succ k ih =>
    obtain ⟨ihr, ihc, ihn⟩ := ih
    have hstep : locAfter (k + 1) st = (next_loc (locAfter k st)).2 := rfl
    have hmod : k % n + k / n * n = k := Nat.mod_add_div' k n
    have hdiv1 : (k + 1) / n = (k % n + 1) / n + k / n := by
      conv_lhs => rw [← hmod]
      rw [Nat.add_right_comm]
      exact Nat.add_mul_div_right (k % n + 1) (k / n) (by omega)
    have hmod1 : (k + 1) % n = (k % n + 1) % n := by
      conv_lhs => rw [← hmod]
      rw [Nat.add_right_comm]
      exact Nat.add_mul_mod_self_right (k % n + 1) (k / n) n
    rw [hstep]
    unfold next_loc
    refine ⟨?_, ?_, ?_⟩
    · simp only [ihr, ihc, ihn]
      omega
    · simp only [ihc, ihn]
      omega
    · exact ihn

/-- C4. For every parser with at least one column: next_loc returns the
current pair and advances the cursor by the carry arithmetic of the
source; starting at (0,0), the value returned by the i-th call (i counted
from zero) is (i div ncols, i mod ncols), so the first ncols calls yield
(0,0) through (0, ncols - 1) and the next call yields (1, 0). -/
theorem c4_next_loc_row_major {R : Type} (st : ParserState R) (n : Nat)
    (hn : st.ncols = n) (hpos : 1 ≤ n) (hr : st.current_row = 0)
    (hc : st.current_col = 0) :
    (∀ st2 : ParserState R,
      next_loc st2 = ((st2.current_row, st2.current_col),
        { st2 with
            current_row := st2.current_row + (st2.current_col + 1) / st2.ncols,
            current_col := (st2.current_col + 1) % st2.ncols })) ∧
    (∀ k : Nat, (next_loc (locAfter k st)).1 = (k / n, k % n)) ∧
    (∀ i : Nat, i < n → (next_loc (locAfter i st)).1 = (0, i)) ∧
    (next_loc (locAfter n st)).1 = (1, 0) := by
  have hinv := locAfter_invariant st n hn hpos hr hc
  have hcall : ∀ k : Nat, (next_loc (locAfter k st)).1 = (k / n, k % n) := by
    intro k
    obtain ⟨h1, h2, h3⟩ := hinv k
    unfold next_loc
    simp [h1, h2]
  refine ⟨fun st2 => rfl, hcall, ?_, ?_⟩
  · intro i hi
    rw [hcall i, Nat.div_eq_of_lt hi, Nat.mod_eq_of_lt hi]
  · rw [hcall n, Nat.div_self (by omega), Nat.mod_self]

theorem c4_next_loc_row_major_witness :
    (next_loc (locAfter 1 (⟨[], [], 2, 0, 0⟩ : ParserState Unit))).1 = (0, 1) ∧
    (next_loc (locAfter 2 (⟨[], [], 2, 0, 0⟩ : ParserState Unit))).1 = (1, 0) :=
  ⟨(c4_next_loc_row_major (⟨[], [], 2, 0, 0⟩ : ParserState Unit) 2 rfl
      (by decide) rfl rfl).2.2.1 1 (by decide),
   (c4_next_loc_row_major (⟨[], [], 2, 0, 0⟩ : ParserState Unit) 2 rfl
      (by decide) rfl rfl).2.2.2⟩

theorem getField_next_loc (st : ParserState (List String)) :
    getField (next_loc st).2 (next_loc st).1.1 (next_loc st).1.2 = fieldAt st := rfl

/-- C1 counterexample. Producing hstore on the binary parser and on the
CSV parser does not return a typed Unimplemented error through the parser
error channel: the call panics through the unimplemented macro, with its
message, a different failure mode from the claimed one. -/
theorem c1_hstore_panics_counterexample :
    (binaryProduceHstore (⟨[], [], 1, 0, 0⟩ : ParserState Unit)).1 =
      RustResult.panicked hstoreUnimplementedMsg ∧
    RustResult.isErr (binaryProduceHstore (⟨[], [], 1, 0, 0⟩ : ParserState Unit)).1 =
      false ∧
    (csvProduceHstore ⟨[], [], 1, 0, 0⟩).1 =
      RustResult.panicked hstoreUnimplementedMsg ∧
    RustResult.isErr (csvProduceHstore ⟨[], [], 1, 0, 0⟩).1 = false :=
  ⟨rfl, rfl, rfl, rfl⟩

/-- C1 amended. Every call to produce for the hstore target on the binary
and CSV parsers, in the non-optional and the optional form, fails
unconditionally by a panic of the unimplemented macro carrying the
message that the cursor protocol must be used; only the cursor parser has
a value-producing hstore implementation, which decodes the value that
try_get yields on the current row and column. -/
theorem c1_hstore_unimplemented_amended {R : Type}
    (stb : ParserState R) (stc : ParserState (List String))
    (stq : ParserState (Nat → Except PostgresSourceError HStore)) :
    (binaryProduceHstore stb).1 = RustResult.panicked hstoreUnimplementedMsg ∧
    (binaryProduceHstoreOpt stb).1 = RustResult.panicked hstoreUnimplementedMsg ∧
    (csvProduceHstore stc).1 = RustResult.panicked hstoreUnimplementedMsg ∧
    (csvProduceHstoreOpt stc).1 = RustResult.panicked hstoreUnimplementedMsg ∧
    (∀ (row : Nat → Except PostgresSourceError HStore) (hv : HStore),
      stq.rowbuf.get? stq.current_row = some row →
      row stq.current_col = Except.ok hv →
      (rawProduce stq).1 = RustResult.ok hv) := by
  refine ⟨rfl, rfl, rfl, rfl, ?_⟩
  intro row hv hget hrow
  have h1 : (next_loc stq).2.rowbuf.get? (next_loc stq).1.1 =
      stq.rowbuf.get? stq.current_row := rfl
  have h2 : row (next_loc stq).1.2 = row stq.current_col := rfl
  simp only [rawProduce, h1, hget, h2, hrow]

theorem c1_hstore_unimplemented_amended_witness :
    (rawProduce (⟨[], [fun _ => Except.ok [("a", some "1")]], 1, 0, 0⟩ :
        ParserState (Nat → Except PostgresSourceError HStore))).1 =
      RustResult.ok [("a", some "1")] :=
  (c1_hstore_unimplemented_amended (⟨[], [], 1, 0, 0⟩ : ParserState Unit)
      ⟨[], [], 1, 0, 0⟩
      ⟨[], [fun _ => Except.ok [("a", some "1")]], 1, 0, 0⟩).2.2.2.2
    (fun _ => Except.ok [("a", some "1")]) [("a", some "1")] rfl rfl

/-- C3 counterexample. On the CSV parser, a SQL NULL arrives as the empty
field, and reading it through the non-optional str producer does not fail
with a type mismatch: it succeeds and returns the empty string. -/
theorem c3_null_str_counterexample :
    (csvProduceStr (⟨[], [[""]], 1, 0, 0⟩ : ParserState (List String))).1 =
      RustResult.ok "" := rfl

/-- C3 amended. On the CSV parser, where NULL arrives as the empty field:
every optional producer yields None on the empty field, before any parse
is attempted; the non-optional parse-based producers (integers, floats,
decimal, uuid, the temporal types, json, bool and the array types) fail
with CannotProduce; but the non-optional str producer succeeds with the
empty string, and the non-optional bytea producer panics on slicing. -/
theorem c3_null_law_amended (st : ParserState (List String)) (tyName : String)
    (hf : fieldAt st = RustResult.ok "") :
    (∀ (A : Type) (parse : String → Option A),
      (csvProduceOpt tyName parse st).1 = RustResult.ok none) ∧
    (∀ (A : Type) (parse : String → Option A), parse "" = none →
      (csvProduce tyName parse st).1 =
        RustResult.err (PostgresSourceError.ConnectorX
          (ConnectorXError.CannotProduce tyName (some "")))) ∧
    (csvProduceBoolOpt st).1 = RustResult.ok none ∧
    (csvProduceBool st).1 =
      RustResult.err (PostgresSourceError.ConnectorX
        (ConnectorXError.CannotProduce "bool" (some ""))) ∧
    (∀ (A : Type) (parse : String → Option A),
      (csvProduceDateTimeUtcOpt parse st).1 = RustResult.ok none) ∧
    (∀ (A : Type) (parse : String → Option A), parse ":00" = none →
      (csvProduceDateTimeUtc parse st).1 =
        RustResult.err (PostgresSourceError.ConnectorX
          (ConnectorXError.CannotProduce "DateTime<Utc>" (some "")))) ∧
    (∀ (A : Type) (parse : String → Option A),
      (csvVecProduceOpt tyName parse st).1 = RustResult.ok none) ∧
    (∀ (A : Type) (parse : String → Option A),
      (csvVecProduce tyName parse st).1 =
        RustResult.err (PostgresSourceError.ConnectorX
          (ConnectorXError.CannotProduce tyName (some "")))) ∧
    (csvProduceStrOpt st).1 = RustResult.ok none ∧
    (csvProduceStr st).1 = RustResult.ok "" ∧
    (∀ hexdec : String → Option (List Nat),
      (csvProduceByteaOpt hexdec st).1 = RustResult.ok none) ∧
    (∀ hexdec : String → Option (List Nat),
      (csvProduceBytea hexdec st).1 =
        RustResult.panicked "byte index out of bounds") ∧
    (∀ (A : Type) (parse : String → Option (Option A)),
      (csvProduceJsonOpt parse st).1 = RustResult.ok none) := by
  refine ⟨?_, ?_, ?_, ?_, ?_, ?_, ?_, ?_, ?_, ?_, ?_, ?_, ?_⟩
  · intro A parse
    simp [csvProduceOpt, getField_next_loc, hf]
  · intro A parse hparse
    simp [csvProduce, getField_next_loc, hf, hparse]
  · simp [csvProduceBoolOpt, getField_next_loc, hf]
  · simp [csvProduceBool, getField_next_loc, hf]
  · intro A parse
    simp [csvProduceDateTimeUtcOpt, getField_next_loc, hf]
  · intro A parse hparse
    simp [csvProduceDateTimeUtc, getField_next_loc, hf, hparse]
  · intro A parse
    simp [csvVecProduceOpt, getField_next_loc, hf]
  · intro A parse
    simp [csvVecProduce, getField_next_loc, hf]
  · simp [csvProduceStrOpt, getField_next_loc, hf]
  · simp [csvProduceStr, getField_next_loc, hf]
  · intro hexdec
    simp [csvProduceByteaOpt, getField_next_loc, hf]
  · intro hexdec
    simp [csvProduceBytea, getField_next_loc, hf]
  · intro A parse
    simp [csvProduceJsonOpt, getField_next_loc, hf]

theorem c3_null_law_amended_witness :
    (csvProduceOpt "i64" (fun s => s.toNat?)
      (⟨[], [[""]], 1, 0, 0⟩ : ParserState (List String))).1 = RustResult.ok none ∧
    (csvProduceBool (⟨[], [[""]], 1, 0, 0⟩ : ParserState (List String))).1 =
      RustResult.err (PostgresSourceError.ConnectorX
        (ConnectorXError.CannotProduce "bool" (some ""))) :=
  ⟨(c3_null_law_amended ⟨[], [[""]], 1, 0, 0⟩ "i64" rfl).1 Nat (fun s => s.toNat?),
   (c3_null_law_amended ⟨[], [[""]], 1, 0, 0⟩ "i64" rfl).2.2.2.1⟩

/-- C7. The DateTime Utc producer of the CSV parser parses the field
extended by the colon-zero-zero suffix, completing the truncated offset;
a parse failure returns CannotProduce carrying the original field; and
the optional form maps the empty field to None before any parse is
attempted (it holds for every parse function). -/
theorem c7_timestamptz_csv_quirk {A : Type} (parse : String → Option A)
    (st : ParserState (List String)) (s : String)
    (hf : fieldAt st = RustResult.ok s) :
    (∀ d : A, parse (s ++ ":00") = some d →
      (csvProduceDateTimeUtc parse st).1 = RustResult.ok d) ∧
    (parse (s ++ ":00") = none →
      (csvProduceDateTimeUtc parse st).1 =
        RustResult.err (PostgresSourceError.ConnectorX
          (ConnectorXError.CannotProduce "DateTime<Utc>" (some s)))) ∧
    (s = "" → ∀ parse2 : String → Option A,
      (csvProduceDateTimeUtcOpt parse2 st).1 = RustResult.ok none) ∧
    (s ≠ "" → ∀ d : A, parse (s ++ ":00") = some d →
      (csvProduceDateTimeUtcOpt parse st).1 = RustResult.ok (some d)) ∧
    (s ≠ "" → parse (s ++ ":00") = none →
      (csvProduceDateTimeUtcOpt parse st).1 =
        RustResult.err (PostgresSourceError.ConnectorX
          (ConnectorXError.CannotProduce "DateTime<Utc>" (some s)))) := by
  refine ⟨?_, ?_, ?_, ?_, ?_⟩
  · intro d hp
    simp [csvProduceDateTimeUtc, getField_next_loc, hf, hp]
  · intro hp
    simp [csvProduceDateTimeUtc, getField_next_loc, hf, hp]
  · intro hs parse2
    subst hs
    simp [csvProduceDateTimeUtcOpt, getField_next_loc, hf]
  · intro hs d hp
    simp [csvProduceDateTimeUtcOpt, getField_next_loc, hf, hs, hp]
  · intro hs hp
    simp [csvProduceDateTimeUtcOpt, getField_next_loc, hf, hs, hp]

theorem c7_timestamptz_csv_quirk_witness :
    (csvProduceDateTimeUtc
      (fun x => if x = "1970-01-01 00:00:01+00:00" then some 1 else none)
      (⟨[], [["1970-01-01 00:00:01+00"]], 1, 0, 0⟩ : ParserState (List String))).1 =
      RustResult.ok 1 :=
  (c7_timestamptz_csv_quirk
      (fun x => if x = "1970-01-01 00:00:01+00:00" then some 1 else none)
      ⟨[], [["1970-01-01 00:00:01+00"]], 1, 0, 0⟩
      "1970-01-01 00:00:01+00" rfl).1 1 (by decide)

/-- C8. The array producers of the CSV parser: the braces-only field is
the empty vector; any other field shorter than three characters is
CannotProduce; otherwise the first and last characters are stripped, the
remainder is split on commas, and every element is parsed, any element
failure giving CannotProduce; the optional form first maps the empty
field to None. The length test and the stripping are byte operations in
Rust and character operations here, which coincide on ASCII fields. -/
theorem c8_csv_array_decode {A : Type} (tyName : String)
    (parse : String → Option A) (st : ParserState (List String)) (s : String)
    (hascii : ∀ ch ∈ s.data, ch.toNat < 128)
    (hf : fieldAt st = RustResult.ok s) :
    (s = "\x7b\x7d" → (csvVecProduce tyName parse st).1 = RustResult.ok []) ∧
    (s ≠ "\x7b\x7d" → s.length < 3 →
      (csvVecProduce tyName parse st).1 =
        RustResult.err (PostgresSourceError.ConnectorX
          (ConnectorXError.CannotProduce tyName (some s)))) ∧
    (s ≠ "\x7b\x7d" → 3 ≤ s.length → ∀ vs : List A,
      parseAll parse (splitOnComma ((s.data.drop 1).dropLast)) = some vs →
      (csvVecProduce tyName parse st).1 = RustResult.ok vs) ∧
    (s ≠ "\x7b\x7d" → 3 ≤ s.length →
      parseAll parse (splitOnComma ((s.data.drop 1).dropLast)) = none →
      (csvVecProduce tyName parse st).1 =
        RustResult.err (PostgresSourceError.ConnectorX
          (ConnectorXError.CannotProduce tyName (some s)))) ∧
    (s = "" → (csvVecProduceOpt tyName parse st).1 = RustResult.ok none) ∧
    (s = "\x7b\x7d" →
      (csvVecProduceOpt tyName parse st).1 = RustResult.ok (some [])) ∧
    (s ≠ "" → s ≠ "\x7b\x7d" → s.length < 3 →
      (csvVecProduceOpt tyName parse st).1 =
        RustResult.err (PostgresSourceError.ConnectorX
          (ConnectorXError.CannotProduce tyName (some s)))) ∧
    (s ≠ "" → s ≠ "\x7b\x7d" → 3 ≤ s.length → ∀ vs : List A,
      parseAll parse (splitOnComma ((s.data.drop 1).dropLast)) = some vs →
      (csvVecProduceOpt tyName parse st).1 = RustResult.ok (some vs)) ∧
    (s ≠ "" → s ≠ "\x7b\x7d" → 3 ≤ s.length →
      parseAll parse (splitOnComma ((s.data.drop 1).dropLast)) = none →
      (csvVecProduceOpt tyName parse st).1 =
        RustResult.err (PostgresSourceError.ConnectorX
          (ConnectorXError.CannotProduce tyName (some s)))) := by
  refine ⟨?_, ?_, ?_, ?_, ?_, ?_, ?_, ?_, ?_⟩
  · intro hs
    subst hs
    simp [csvVecProduce, getField_next_loc, hf]
  · intro hs hlen
    simp [csvVecProduce, getField_next_loc, hf, hs, hlen]
  · intro hs hlen vs hm
    have hnl : ¬ s.length < 3 := by omega
    rw [List.drop_one] at hm
    simp [csvVecProduce, getField_next_loc, hf, hs, hnl, hm]
  · intro hs hlen hm
    have hnl : ¬ s.length < 3 := by omega
    rw [List.drop_one] at hm
    simp [csvVecProduce, getField_next_loc, hf, hs, hnl, hm]
  · intro hs
    subst hs
    simp [csvVecProduceOpt, getField_next_loc, hf]
  · intro hs
    subst hs
    simp [csvVecProduceOpt, getField_next_loc, hf]
  · intro hne hs hlen
    simp [csvVecProduceOpt, getField_next_loc, hf, hne, hs, hlen]
  · intro hne hs hlen vs hm
    have hnl : ¬ s.length < 3 := by omega
    rw [List.drop_one] at hm
    simp [csvVecProduceOpt, getField_next_loc, hf, hne, hs, hnl, hm]
  · intro hne hs hlen hm
    have hnl : ¬ s.length < 3 := by omega
    rw [List.drop_one] at hm
    simp [csvVecProduceOpt, getField_next_loc, hf, hne, hs, hnl, hm]

theorem c8_csv_array_decode_witness :
    (csvVecProduce "i64" (fun x => some x)
      (⟨[], [["\x7b1,2\x7d"]], 1, 0, 0⟩ : ParserState (List String))).1 =
      RustResult.ok ["1", "2"] :=
  (c8_csv_array_decode "i64" (fun x => some x)
      ⟨[], [["\x7b1,2\x7d"]], 1, 0, 0⟩ "\x7b1,2\x7d"
      (by decide) rfl).2.2.1 (by decide) (by decide) ["1", "2"] (by decide)

/-- C6. result_rows returns None when origin_query is unset; when set,
the outcome of the derived count query is interpreted through the
returned column type: an Int2, Int4 or Int8 column gives the scalar cast
to usize, any other column type fails with the Other variant carrying the
count-was-not-an-int message, and a driver error propagates. -/
theorem c6_result_rows_contract (st : PostgresSource)
    (run : String → Except PostgresSourceError PgRow) :
    (st.origin_query = none → result_rows st run = RustResult.ok none) ∧
    (∀ (q : String) (row : PgRow) (v : Int),
      st.origin_query = some q → run q = Except.ok row →
      isCountInt row.colType = true → row.value = some v →
      result_rows st run = RustResult.ok (some (usizeOfInt v))) ∧
    (∀ (q : String) (row : PgRow),
      st.origin_query = some q → run q = Except.ok row →
      isCountInt row.colType = false →
      result_rows st run = RustResult.err (PostgresSourceError.Other
        "The result of the count query was not an int, aborting.")) ∧
    (∀ (q : String) (e : PostgresSourceError),
      st.origin_query = some q → run q = Except.error e →
      result_rows st run = RustResult.err e) := by
  refine ⟨?_, ?_, ?_, ?_⟩
  · intro h
    simp [result_rows, h]
  · intro q row v hq hrun hint hval
    rcases row with ⟨ct, val⟩
    simp only at hint hval
    subst hval
    cases ct <;>
      simp_all [result_rows, get_total_rows, convert_row, RustResult.map, isCountInt]
  · intro q row hq hrun hint
    rcases row with ⟨ct, val⟩
    simp only at hint
    cases ct <;>
      simp_all [result_rows, get_total_rows, convert_row, RustResult.map, isCountInt]
  · intro q e hq hrun
    simp [result_rows, hq, get_total_rows, hrun, RustResult.map]

theorem c6_result_rows_contract_witness :
    result_rows ⟨some "q", [], [], []⟩
        (fun _ => Except.ok ⟨PostgresTypeSystem.Int8 true, some 5⟩) =
      RustResult.ok (some (usizeOfInt 5)) ∧
    result_rows ⟨none, [], [], []⟩
        (fun _ => Except.ok ⟨PostgresTypeSystem.Int8 true, some 5⟩) =
      RustResult.ok none :=
  ⟨(c6_result_rows_contract ⟨some "q", [], [], []⟩
      (fun _ => Except.ok ⟨PostgresTypeSystem.Int8 true, some 5⟩)).2.1
      "q" ⟨PostgresTypeSystem.Int8 true, some 5⟩ 5 rfl rfl rfl rfl,
   (c6_result_rows_contract ⟨none, [], [], []⟩
      (fun _ => Except.ok ⟨PostgresTypeSystem.Int8 true, some 5⟩)).1 rfl⟩

/-- C9. set_data_order succeeds, leaving the source unchanged, exactly
when the requested order is row-major, and fails with
UnsupportedDataOrder carrying the rejected order on every other order;
the advertised DATA_ORDERS list is exactly the singleton row-major. -/
theorem c9_set_data_order (st : PostgresSource) (d : DataOrder) :
    (set_data_order st d = Except.ok st ↔ d = DataOrder.RowMajor) ∧
    (d ≠ DataOrder.RowMajor →
      set_data_order st d = Except.error (PostgresSourceError.ConnectorX
        (ConnectorXError.UnsupportedDataOrder d))) ∧
    DATA_ORDERS = [DataOrder.RowMajor] := by
  refine ⟨?_, ?_, rfl⟩ <;> cases d <;> simp [set_data_order]

theorem c9_set_data_order_witness :
    set_data_order ⟨none, [], [], []⟩ DataOrder.ColumnMajor =
      Except.error (PostgresSourceError.ConnectorX
        (ConnectorXError.UnsupportedDataOrder DataOrder.ColumnMajor)) ∧
    DATA_ORDERS = [DataOrder.RowMajor] :=
  ⟨(c9_set_data_order ⟨none, [], [], []⟩ DataOrder.ColumnMajor).2.1 (by decide),
   (c9_set_data_order ⟨none, [], [], []⟩ DataOrder.ColumnMajor).2.2⟩

/-- C10. A negative in-range integer scalar returned by the count query
does not make get_total_rows fail: the as-usize cast reduces the value
modulo 2 ^ 64, which on a negative in-range value is twos-complement sign
extension (the cast equals 2 ^ 64 + v), and in particular the scalar -1
yields 2 ^ 64 - 1 as the total row count. -/
theorem c10_negative_count_cast (row : PgRow) (b : Bool) (v : Int)
    (hct : row.colType = PostgresTypeSystem.Int8 b) (hval : row.value = some v)
    (hneg : v < 0) (hrange : -(2 ^ 63) ≤ v) :
    get_total_rows (Except.ok row) = RustResult.ok (usizeOfInt v) ∧
    ((usizeOfInt v : Int) = 2 ^ 64 + v) ∧
    (v = -1 → usizeOfInt v = 2 ^ 64 - 1) := by
  have hpow : (2 : Int) ^ 64 = 18446744073709551616 := by norm_num
  have hrange2 : (-9223372036854775808 : Int) ≤ v := by
    have h63 : ((2 : Int) ^ 63) = 9223372036854775808 := by norm_num
    omega
  have hmod : v % (2 : Int) ^ 64 = v + 2 ^ 64 := by
    rw [hpow]
    omega
  have hus : (usizeOfInt v : Int) = 2 ^ 64 + v := by
    unfold usizeOfInt
    rw [hmod]
    rw [Int.toNat_of_nonneg (by rw [hpow]; omega)]
    ring
  refine ⟨?_, hus, ?_⟩
  · rcases row with ⟨ct, val⟩
    simp only at hct hval
    subst hct
    subst hval
    simp [get_total_rows, convert_row, RustResult.map]
  · intro hv1
    subst hv1
    have h := hus
    rw [hpow] at h
    have hg : (2 : Nat) ^ 64 - 1 = 18446744073709551615 := by norm_num
    rw [hg]
    omega

theorem c10_negative_count_cast_witness :
    get_total_rows (Except.ok ⟨PostgresTypeSystem.Int8 true, some (-1)⟩) =
      RustResult.ok (usizeOfInt (-1)) ∧
    usizeOfInt (-1) = 2 ^ 64 - 1 :=
  ⟨(c10_negative_count_cast ⟨PostgresTypeSystem.Int8 true, some (-1)⟩ true (-1)
      rfl rfl (by norm_num) (by norm_num)).1,
   (c10_negative_count_cast ⟨PostgresTypeSystem.Int8 true, some (-1)⟩ true (-1)
      rfl rfl (by norm_num) (by norm_num)).2.2 rfl⟩
